import Mathlib

/-!
# Verification of the KTX2 lite-transcoder variant and the image-processing configuration

Shallow embedding of:
* `packages/tools/ktx2Decoder/src/Transcoders/liteTranscoder_UASTC_RGBA_UNORM.ts`
  (the `LiteTranscoder_UASTC_RGBA_UNORM` variant: capability check, initialization,
  and the `transcode` operation), together with spec-modelled pieces of the missing
  `LiteTranscoder` base class (module lifecycle, `_prepareTranscoding`, `setModulePath`);
* `ImageProcessingConfiguration` (guarded property setters and observer notification).

Machine data: bytes are `Nat` (values < 256 in practice; the setter/guard logic never
depends on the range), JS numbers in the configuration are `Rat`, object references are
`Option Nat` identities compared by `===` (identity equality).
-/

namespace KTX2

/-- Source texture formats of the KTX2 decoder (enumeration from
`core/Materials/Textures/ktx2decoderTypes`; the spec calls it the Source Encoding tag). -/
inductive SourceTextureFormat where
  | ETC1S
  | UASTC4x4
deriving DecidableEq, Repr

/-- Transcode targets of the KTX2 decoder (enumeration from
`core/Materials/Textures/ktx2decoderTypes`; the spec calls it the Transcode Target tag). -/
inductive TranscodeTarget where
  | ASTC_4X4_RGBA
  | BC7_RGBA
  | BC3_RGBA
  | BC1_RGB
  | PVRTC1_4_RGBA
  | PVRTC1_4_RGB
  | ETC2_RGBA
  | ETC1_RGB
  | RGBA32
  | R8
  | RG8
deriving DecidableEq, Repr

end KTX2

namespace LiteTranscoderUASTCRGBAUNORM

/-- `LiteTranscoder_UASTC_RGBA_UNORM.CanTranscode(src, dst, isInGammaSpace)`:
`return src === KTX2.SourceTextureFormat.UASTC4x4 && dst === KTX2.TranscodeTarget.RGBA32 && !isInGammaSpace;` -/
def CanTranscode (src : KTX2.SourceTextureFormat) (dst : KTX2.TranscodeTarget)
    (isInGammaSpace : Bool) : Bool :=
  src == KTX2.SourceTextureFormat.UASTC4x4 && dst == KTX2.TranscodeTarget.RGBA32 &&
    !isInGammaSpace

end LiteTranscoderUASTCRGBAUNORM

/-- C1: the variant's capability check is a pure boolean predicate over its three
arguments: it returns `true` exactly when the source is `UASTC4x4`, the target is
`RGBA32`, and the color-space flag is linear (`isInGammaSpace = false`); it returns
`false` for every other triple. Purity (no state read or mutated) holds by
construction: `CanTranscode` is a function of its arguments alone. -/
theorem C1_canTranscode_characterization :
    ∀ (src : KTX2.SourceTextureFormat) (dst : KTX2.TranscodeTarget) (g : Bool),
      LiteTranscoderUASTCRGBAUNORM.CanTranscode src dst g = true ↔
        src = KTX2.SourceTextureFormat.UASTC4x4 ∧ dst = KTX2.TranscodeTarget.RGBA32 ∧
          g = false := by
  intro src dst g
  cases src <;> cases dst <;> cases g <;> simp [LiteTranscoderUASTCRGBAUNORM.CanTranscode]

namespace LiteTranscoderUASTCRGBAUNORM

/-- A loaded wasm decode module. The module source is not part of this repository;
modelled from the spec: decode execution, once a module is loaded, is synchronous,
non-suspending, deterministic CPU work (§5), so the entry point is a pure function.
`decodeRet w h enc` is the integer return code of `transcoder.decode(width, height)`
when the working memory holds the encoded bytes `enc`; `decodeOut w h enc` is the
byte content the decode routine leaves in the uncompressed output region. -/
structure DecodeModule where
  decodeRet : Nat → Nat → List Nat → Int
  decodeOut : Nat → Nat → List Nat → List Nat

/-- Outcome of awaiting `_loadModule()`: the shared module-load promise either
resolves with the module wrapper or rejects with an error. -/
inductive LoadOutcome where
  | resolved (m : DecodeModule)
  | rejected (e : String)

/-- Observable events inside one `transcode` call, in execution order. -/
inductive Event where
  | moduleLoadAwaited
  | decodeInvoked (width height : Nat)
deriving DecidableEq, Repr

/-- A byte-buffer result as handed back to the caller: either an owned copy of
bytes, or a view that reads the module's working memory at dereference time.
The distinction carries the aliasing content of `.slice()` (copy) versus a
`Uint8Array` view over the wasm memory. -/
inductive BufResult where
  | copy (bytes : List Nat)
  | view (off len : Nat)
deriving DecidableEq, Repr

/-- Reading a buffer result under a given working-memory content: an owned copy is
insensitive to the memory, a view reads the memory segment it points at. -/
def BufResult.read (mem : List Nat) : BufResult → List Nat
  | .copy bs => bs
  | .view off len => (mem.drop off).take len

/-- A fixed-length memory view: the first `n` bytes of `bytes`, zero-padded — a
`Uint8Array` view of length `n` holds exactly `n` bytes whatever the decode
routine wrote. -/
def viewOfLength (n : Nat) (bytes : List Nat) : List Nat :=
  (bytes ++ List.replicate n 0).take n

/-- Modelled from the spec: `_prepareTranscoding` of the missing base class
`LiteTranscoder` (§4.5 steps 3–4): prepare a working memory region holding the
encoded bytes followed by an uncompressed output region of
`width * height * uncompressedNumComponents` bytes (the subclass passes
`uncompressedNumComponents = 4`, the RGBA32 stride; scenario §8.6 expects a
4×4×4-byte result for a 4×4 image). Returns the whole working region together
with the offset and length of the uncompressed view. -/
def prepareTranscoding (width height : Nat) (encodedData : List Nat)
    (uncompressedNumComponents : Nat) : List Nat × Nat × Nat :=
  let outLen := width * height * uncompressedNumComponents
  (encodedData ++ List.replicate outLen 0, encodedData.length, outLen)

/-- The `transcode` method of `LiteTranscoder_UASTC_RGBA_UNORM`:
`return this._loadModule().then((moduleWrapper) => { const transcoder = moduleWrapper.module;
const [, uncompressedTextureView] = this._prepareTranscoding(width, height,
uncompressedByteLength, encodedData, 4);
return transcoder.decode(width, height) === 0 ? uncompressedTextureView!.slice() : null; });`

The promise chain is modelled by explicit sequencing: the load outcome is consumed
first; the continuation runs only when it resolved. The result records, in order:
the event trace, the working memory at return, and the promise outcome
(`Except` error = rejection, `Option` = the null-or-buffer value). -/
def transcode (load : LoadOutcome) (width height : Nat)
    (uncompressedByteLength : Nat) (encodedData : List Nat) (mem : List Nat) :
    List Event × List Nat × Except String (Option BufResult) :=
  match load with
  | .rejected e => ([.moduleLoadAwaited], mem, .error e)
  | .resolved m =>
      let prep := prepareTranscoding width height encodedData 4
      let off := prep.2.1
      let outLen := prep.2.2
      let ret := m.decodeRet width height encodedData
      let outBytes := viewOfLength outLen (m.decodeOut width height encodedData)
      let memAfter := encodedData ++ outBytes
      ([.moduleLoadAwaited, .decodeInvoked width height], memAfter,
        .ok (if ret = 0 then some (.copy ((memAfter.drop off).take outLen)) else none))

theorem length_viewOfLength (n : Nat) (bytes : List Nat) :
    (viewOfLength n bytes).length = n := by
  simp [viewOfLength]

end LiteTranscoderUASTCRGBAUNORM

namespace LiteTranscoderUASTCRGBAUNORM

/-- A decode module returning a constant status code and constant output bytes;
used to exercise the transcode model on concrete inputs. -/
def constModule (ret : Int) (out : List Nat) : DecodeModule :=
  ⟨fun _ _ _ => ret, fun _ _ _ => out⟩

end LiteTranscoderUASTCRGBAUNORM

open LiteTranscoderUASTCRGBAUNORM in
/-- C2: whenever the loaded module's decode entry point returns a non-zero value,
`transcode` resolves to a null result (`.ok none`): a normal outcome, not a raised
exception or a rejected promise. -/
theorem C2_nonzero_decode_yields_null (m : DecodeModule) (w h ub : Nat)
    (enc mem : List Nat) (hret : m.decodeRet w h enc ≠ 0) :
    (transcode (.resolved m) w h ub enc mem).2.2 = .ok none := by
  simp [transcode, hret]

open LiteTranscoderUASTCRGBAUNORM in
/-- Witness for C2: a module whose decode returns 1 makes `transcode` resolve to
`none` on a concrete 4×4 request. -/
theorem C2_nonzero_decode_yields_null_witness :
    (constModule 1 []).decodeRet 4 4 [7, 7] ≠ 0 ∧
      (transcode (.resolved (constModule 1 [])) 4 4 64 [7, 7] []).2.2 = .ok none :=
  ⟨by decide, C2_nonzero_decode_yields_null (constModule 1 []) 4 4 64 [7, 7] [] (by decide)⟩

open LiteTranscoderUASTCRGBAUNORM in
/-- C3: on decode success the returned buffer is a fresh copy produced by slicing
the uncompressed working-memory view: it equals `.copy` of the view's content at
return time, and dereferencing it under any later working-memory content still
yields those same bytes (an aliasing `.view` result would not). -/
theorem C3_success_returns_fresh_copy (m : DecodeModule) (w h ub : Nat)
    (enc mem : List Nat) (hret : m.decodeRet w h enc = 0) :
    (transcode (.resolved m) w h ub enc mem).2.2 =
      .ok (some (.copy (BufResult.read (transcode (.resolved m) w h ub enc mem).2.1
        (.view enc.length (w * h * 4))))) ∧
    ∀ (mem2 : List Nat) (r : BufResult),
      (transcode (.resolved m) w h ub enc mem).2.2 = .ok (some r) →
        r.read mem2 = BufResult.read (transcode (.resolved m) w h ub enc mem).2.1
          (.view enc.length (w * h * 4)) := by
  constructor
  · simp [transcode, hret, prepareTranscoding, BufResult.read]
  · intro mem2 r hr
    simp [transcode, hret, prepareTranscoding] at hr
    subst hr
    simp [transcode, hret, prepareTranscoding, BufResult.read]

open LiteTranscoderUASTCRGBAUNORM in
/-- Witness for C3: on a concrete 4×4 request with a succeeding module, the result
is a copy of the view content and reads the same under a scribbled-over memory. -/
theorem C3_success_returns_fresh_copy_witness :
    (constModule 0 [9, 9]).decodeRet 4 4 [7] = 0 ∧
      ((transcode (.resolved (constModule 0 [9, 9])) 4 4 64 [7] []).2.2 =
        .ok (some (.copy (BufResult.read
          (transcode (.resolved (constModule 0 [9, 9])) 4 4 64 [7] []).2.1
          (.view 1 64)))) ∧
      ∀ (mem2 : List Nat) (r : BufResult),
        (transcode (.resolved (constModule 0 [9, 9])) 4 4 64 [7] []).2.2 =
          .ok (some r) →
          r.read mem2 = BufResult.read
            (transcode (.resolved (constModule 0 [9, 9])) 4 4 64 [7] []).2.1
            (.view 1 64)) :=
  ⟨by decide, by
    have h := C3_success_returns_fresh_copy (constModule 0 [9, 9]) 4 4 64 [7] [] (by decide)
    simpa using h⟩

open LiteTranscoderUASTCRGBAUNORM in
/-- C5: within one `transcode` call the module load is awaited first and the decode
entry point is invoked, with the request's width and height, only after the load
resolved; when the load rejects, no decode invocation appears in the trace and the
load failure propagates as the call's outcome. -/
theorem C5_load_precedes_decode (load : LoadOutcome) (w h ub : Nat)
    (enc mem : List Nat) :
    (∀ m, load = .resolved m →
      (transcode load w h ub enc mem).1 = [.moduleLoadAwaited, .decodeInvoked w h]) ∧
    (∀ e, load = .rejected e →
      (transcode load w h ub enc mem).1 = [.moduleLoadAwaited] ∧
      (transcode load w h ub enc mem).2.2 = .error e ∧
      Event.decodeInvoked w h ∉ (transcode load w h ub enc mem).1) := by
  constructor
  · rintro m rfl
    simp [transcode]
  · rintro e rfl
    simp [transcode]

open LiteTranscoderUASTCRGBAUNORM in
/-- Witness for C5: at a concrete rejected load, the trace holds only the load
await, the failure propagates, and no decode invocation occurs. -/
theorem C5_load_precedes_decode_witness :
    (transcode (.rejected "fetch failed") 4 4 64 [7] []).1 = [.moduleLoadAwaited] ∧
    (transcode (.rejected "fetch failed") 4 4 64 [7] []).2.2 = .error "fetch failed" ∧
    Event.decodeInvoked 4 4 ∉ (transcode (.rejected "fetch failed") 4 4 64 [7] []).1 :=
  (C5_load_precedes_decode (.rejected "fetch failed") 4 4 64 [7] []).2 "fetch failed" rfl

open LiteTranscoderUASTCRGBAUNORM in
/-- C8: for every successful transcode to the RGBA32 target, the returned buffer's
byte length is `width * height * 4` (4 bytes per pixel), which equals the request's
uncompressed byte length. -/
theorem C8_success_buffer_length (m : DecodeModule) (w h ub : Nat)
    (enc mem : List Nat) (hub : ub = w * h * 4) :
    ∀ r : List Nat,
      (transcode (.resolved m) w h ub enc mem).2.2 = .ok (some (.copy r)) →
        r.length = ub := by
  intro r hr
  by_cases hret : m.decodeRet w h enc = 0
  · simp [transcode, hret, prepareTranscoding] at hr
    subst hr
    simp [List.drop_left, length_viewOfLength, hub]
  · simp [transcode, hret] at hr

open LiteTranscoderUASTCRGBAUNORM in
/-- Witness for C8: a 4×4 request yields a 64-byte result buffer. -/
theorem C8_success_buffer_length_witness :
    (64 : Nat) = 4 * 4 * 4 ∧
    ∀ r : List Nat,
      (transcode (.resolved (constModule 0 [1, 2, 3])) 4 4 64 [7] []).2.2 =
        .ok (some (.copy r)) → r.length = 64 :=
  ⟨by decide,
    C8_success_buffer_length (constModule 0 [1, 2, 3]) 4 4 64 [7] [] (by decide)⟩

open LiteTranscoderUASTCRGBAUNORM in
/-- C9: transcoding is deterministic: the call's outcome does not depend on the
working-memory content left by earlier calls, so the same request run twice with
the same loaded module and encoded input — the second call starting from the first
call's final memory — produces identical outcomes (byte-identical buffers or the
same null outcome). -/
theorem C9_transcode_deterministic (load : LoadOutcome) (w h ub : Nat)
    (enc mem1 mem2 : List Nat) :
    (transcode load w h ub enc mem1).2.2 = (transcode load w h ub enc mem2).2.2 ∧
    (transcode load w h ub enc ((transcode load w h ub enc mem1).2.1)).2.2 =
      (transcode load w h ub enc mem1).2.2 := by
  cases load <;> simp [transcode]

namespace LiteTranscoderUASTCRGBAUNORM

/-- Modelled from the spec (§4.4, Module Binding): the per-variant lifecycle state
of the decode module held by the missing base class `LiteTranscoder`
(`_loadModule` and its shared promise are not under `src/`). `loading` counts the
callers attached to the single pending operation. -/
inductive BindingState where
  | unloaded
  | loading (waiters : Nat)
  | loaded (m : DecodeModule)
  | failed (e : String)

/-- Modelled from the spec (§4.4): one `ensureLoaded()` request. Returns the new
binding state and whether a new underlying fetch/instantiation was started:
Unloaded starts the single load; Loading attaches the caller to the same pending
operation; Loaded hands out the retained module; Failed re-attempts the load. -/
def ensureLoaded : BindingState → BindingState × Bool
  | .unloaded => (.loading 1, true)
  | .loading n => (.loading (n + 1), false)
  | .loaded m => (.loaded m, false)
  | .failed _ => (.loading 1, true)

/-- `n` consecutive `ensureLoaded()` requests (the interleaving of concurrent
callers on the single-threaded event loop), counting underlying loads started. -/
def ensureLoadedN : Nat → BindingState → BindingState × Nat
  | 0, st => (st, 0)
  | n + 1, st =>
      let s1 := ensureLoaded st
      let s2 := ensureLoadedN n s1.1
      (s2.1, (if s1.2 then 1 else 0) + s2.2)

/-- Modelled from the spec (§4.4): completion of the pending load delivers the
same outcome to every attached waiter — the loaded module instance is handed out
unchanged to all of them, or the error is propagated to all of them. -/
def completeLoad (r : LoadOutcome) : BindingState → BindingState × List LoadOutcome
  | .loading n =>
      ((match r with
        | .resolved m => .loaded m
        | .rejected e => .failed e), List.replicate n r)
  | st => (st, [])

theorem ensureLoadedN_loading (n k : Nat) :
    ensureLoadedN n (.loading k) = (.loading (k + n), 0) := by
  induction n generalizing k with
  | zero => rfl
  | succ m ih =>
      simp [ensureLoadedN, ensureLoaded, ih (k + 1)]
      omega

end LiteTranscoderUASTCRGBAUNORM

open LiteTranscoderUASTCRGBAUNORM in
/-- C4: issuing `N ≥ 1` concurrent `ensureLoaded()` requests while the variant is
unloaded starts exactly one underlying fetch/instantiation, leaves all `N` callers
attached to that single pending load, and on its completion every one of the `N`
callers receives the very same outcome (the same loaded module instance or the
same propagated failure). -/
theorem C4_at_most_one_load (N : Nat) (hN : 1 ≤ N) (r : LoadOutcome) :
    (ensureLoadedN N .unloaded).2 = 1 ∧
    (ensureLoadedN N .unloaded).1 = .loading N ∧
    (completeLoad r (ensureLoadedN N .unloaded).1).2 = List.replicate N r ∧
    ∀ o ∈ (completeLoad r (ensureLoadedN N .unloaded).1).2, o = r := by
  obtain ⟨n, rfl⟩ : ∃ n, N = n + 1 := ⟨N - 1, by omega⟩
  have h : ensureLoadedN (n + 1) .unloaded = (.loading (n + 1), 1) := by
    simp [ensureLoadedN, ensureLoaded, ensureLoadedN_loading]
    omega
  refine ⟨by simp [h], by simp [h], by simp [h, completeLoad], ?_⟩
  intro o ho
  simp [h, completeLoad] at ho
  exact ho

open LiteTranscoderUASTCRGBAUNORM in
/-- Witness for C4: three concurrent requests on an unloaded binding start one
load; completing it with a failure delivers that same failure to all three. -/
theorem C4_at_most_one_load_witness :
    (ensureLoadedN 3 .unloaded).2 = 1 ∧
    (ensureLoadedN 3 .unloaded).1 = .loading 3 ∧
    (completeLoad (.rejected "err") (ensureLoadedN 3 .unloaded).1).2 =
      List.replicate 3 (.rejected "err") ∧
    ∀ o ∈ (completeLoad (.rejected "err") (ensureLoadedN 3 .unloaded).1).2,
      o = .rejected "err" :=
  C4_at_most_one_load 3 (by decide) (.rejected "err")


namespace LiteTranscoderUASTCRGBAUNORM

/-- Static configuration of the variant:
`public static WasmModuleURL = "https://cdn.babylonjs.com/ktx2Transcoders/1/uastc_rgba8_unorm_v2.wasm"`. -/
def WasmModuleURL : String :=
  "https://cdn.babylonjs.com/ktx2Transcoders/1/uastc_rgba8_unorm_v2.wasm"

/-- `public static WasmBinary: ArrayBuffer | null = null` — the optional inline
module binary, defaulting to null. -/
def WasmBinary : Option (List Nat) := none

/-- Per-variant instance state: the in-place flag, the stored module-source
configuration, and the module binding. -/
structure TranscoderState where
  transcodeInPlace : Bool
  modulePath : String
  wasmBinary : Option (List Nat)
  binding : BindingState

/-- Modelled from the spec (§6, module source configuration): `setModulePath` of
the missing base class stores the `{ moduleURL, moduleBinary }` pair on the
variant. -/
def setModulePath (url : String) (binary : Option (List Nat))
    (s : TranscoderState) : TranscoderState :=
  { s with modulePath := url, wasmBinary := binary }

/-- Modelled from the spec (§4.5 step 3): the base-class `initialize` establishes
the variant defaults; the base default for the buffer strategy is the in-place
one, which variants requiring a separate output region overwrite. (`initialize`
is a reserved word in Lean, hence the `superInit` / `initTranscoder` names.) -/
def superInit (s : TranscoderState) : TranscoderState :=
  { s with transcodeInPlace := true }

/-- `initialize()` of `LiteTranscoder_UASTC_RGBA_UNORM`:
`super.initialize(); this._transcodeInPlace = false;
this.setModulePath(LiteTranscoder_UASTC_RGBA_UNORM.WasmModuleURL, LiteTranscoder_UASTC_RGBA_UNORM.WasmBinary);` -/
def initTranscoder (s : TranscoderState) : TranscoderState :=
  setModulePath WasmModuleURL WasmBinary
    { superInit s with transcodeInPlace := false }

/-- The operations the variant exposes after initialization. -/
inductive VariantOp where
  | getNameOp
  | canTranscodeOp (src : KTX2.SourceTextureFormat) (dst : KTX2.TranscodeTarget)
      (isInGammaSpace : Bool)
  | transcodeOp

/-- Effect of each post-initialization operation on the variant state. `getName`
and `CanTranscode` are pure; `transcode` advances the module binding through
`ensureLoaded` (§4.4) and works in scratch memory, but the in-place flag and the
module-source configuration are fixed at construction (§4.5 step 3, §9) and no
operation writes them. -/
def applyOp : VariantOp → TranscoderState → TranscoderState
  | .getNameOp, s => s
  | .canTranscodeOp _ _ _, s => s
  | .transcodeOp, s => { s with binding := (ensureLoaded s.binding).1 }

/-- The source of the module binary chosen by the lifecycle manager. -/
inductive ModuleSource where
  | inlineBinary (bytes : List Nat)
  | remoteFetch (url : String)

/-- Modelled from the spec (§4.4 Loading→Loaded, §6): module instantiation uses
the pre-supplied binary when the configuration holds one — the remote fetch is
skipped — and fetches from the configured URL otherwise. -/
def resolveModuleSource (s : TranscoderState) : ModuleSource :=
  match s.wasmBinary with
  | some b => .inlineBinary b
  | none => .remoteFetch s.modulePath

theorem applyOp_transcodeInPlace (op : VariantOp) (s : TranscoderState) :
    (applyOp op s).transcodeInPlace = s.transcodeInPlace := by
  cases op <;> rfl

end LiteTranscoderUASTCRGBAUNORM

open LiteTranscoderUASTCRGBAUNORM in
/-- C6: after `initialize()` runs on the variant its `_transcodeInPlace` flag is
`false` (the variant requires a separate output region), and no sequence of the
variant's operations ever changes the flag afterwards. -/
theorem C6_transcodeInPlace_fixed_false (s : TranscoderState) :
    (initTranscoder s).transcodeInPlace = false ∧
    ∀ ops : List VariantOp,
      (ops.foldl (fun t op => applyOp op t) (initTranscoder s)).transcodeInPlace =
        false := by
  refine ⟨rfl, ?_⟩
  intro ops
  have h : ∀ (l : List VariantOp) (t : TranscoderState),
      t.transcodeInPlace = false →
      (l.foldl (fun u o => applyOp o u) t).transcodeInPlace = false := by
    intro l
    induction l with
    | nil => intro t ht; exact ht
    | cons o l2 ih =>
        intro t ht
        simp only [List.foldl_cons]
        exact ih _ ((applyOp_transcodeInPlace o t).trans ht)
  exact h ops _ rfl

open LiteTranscoderUASTCRGBAUNORM in
/-- C7: the variant's external configuration is the module URL string plus an
optional inline binary defaulting to null; `initialize()` hands exactly that pair
to the module-path setup, and whenever an inline binary is configured the module
source is the inline binary (the remote fetch is skipped). -/
theorem C7_module_configuration (s : TranscoderState) :
    WasmBinary = none ∧
    (initTranscoder s).modulePath = WasmModuleURL ∧
    (initTranscoder s).wasmBinary = WasmBinary ∧
    ∀ (t : TranscoderState) (b : List Nat), t.wasmBinary = some b →
      resolveModuleSource t = .inlineBinary b := by
  refine ⟨rfl, rfl, rfl, ?_⟩
  intro t b hb
  simp [resolveModuleSource, hb]

open LiteTranscoderUASTCRGBAUNORM in
/-- Witness for C7: on a concrete state configured with an inline binary, the
resolved module source is that binary. -/
theorem C7_module_configuration_witness :
    WasmBinary = none ∧
    (initTranscoder ⟨true, "", none, .unloaded⟩).modulePath = WasmModuleURL ∧
    (initTranscoder ⟨true, "", none, .unloaded⟩).wasmBinary = WasmBinary ∧
    resolveModuleSource ⟨false, "u", some [1, 2], .unloaded⟩ =
      .inlineBinary [1, 2] := by
  obtain ⟨h1, h2, h3, h4⟩ := C7_module_configuration ⟨true, "", none, .unloaded⟩
  exact ⟨h1, h2, h3, h4 ⟨false, "u", some [1, 2], .unloaded⟩ [1, 2] rfl⟩

namespace ImageProcessing

/-- State of `ImageProcessingConfiguration`: every serialized/backing field of the
class. JS numbers are `Rat` (the setters only compare with `===` and store);
object references (`ColorCurves`, `BaseTexture`) are `Option Nat` identities,
`===` being reference equality; `vignetteColor` is the `Color4` r/g/b/a tuple. -/
structure Config where
  colorCurves : Option Nat
  colorCurvesEnabled : Bool
  colorGradingTexture : Option Nat
  colorGradingEnabled : Bool
  colorGradingWithGreenDepth : Bool
  colorGradingBGR : Bool
  exposure : Rat
  toneMappingEnabled : Bool
  toneMappingType : Rat
  contrast : Rat
  vignetteStretch : Rat
  vignetteCenterX : Rat
  vignetteCenterY : Rat
  vignetteWeight : Rat
  vignetteColor : Rat × Rat × Rat × Rat
  vignetteCameraFov : Rat
  vignetteBlendMode : Rat
  vignetteEnabled : Bool
  ditheringEnabled : Bool
  ditheringIntensity : Rat
  skipFinalColorClamp : Bool
  applyByPostProcess : Bool
  isEnabled : Bool
deriving DecidableEq

/-- `TONEMAPPING_STANDARD = 0`. -/
def TONEMAPPING_STANDARD : Rat := 0

/-- `VIGNETTEMODE_MULTIPLY = 0`. -/
def VIGNETTEMODE_MULTIPLY : Rat := 0

/-- The field initializers of `ImageProcessingConfiguration` (a fresh
`ColorCurves` object gets identity 0; `_colorGradingTexture` starts undefined). -/
def mkConfig : Config where
  colorCurves := some 0
  colorCurvesEnabled := false
  colorGradingTexture := none
  colorGradingEnabled := false
  colorGradingWithGreenDepth := true
  colorGradingBGR := true
  exposure := 1
  toneMappingEnabled := false
  toneMappingType := TONEMAPPING_STANDARD
  contrast := 1
  vignetteStretch := 0
  vignetteCenterX := 0
  vignetteCenterY := 0
  vignetteWeight := 3 / 2
  vignetteColor := (0, 0, 0, 0)
  vignetteCameraFov := 1 / 2
  vignetteBlendMode := VIGNETTEMODE_MULTIPLY
  vignetteEnabled := false
  ditheringEnabled := false
  ditheringIntensity := 1 / 255
  skipFinalColorClamp := false
  applyByPostProcess := false
  isEnabled := true

/-- One assignment to a guarded property of the configuration (the sixteen
setters that guard on `===` and call `_updateParameters()`). -/
inductive PropAssign where
  | setColorCurvesEnabled (v : Bool)
  | setColorGradingTexture (v : Option Nat)
  | setColorGradingEnabled (v : Bool)
  | setColorGradingWithGreenDepth (v : Bool)
  | setColorGradingBGR (v : Bool)
  | setExposure (v : Rat)
  | setToneMappingEnabled (v : Bool)
  | setToneMappingType (v : Rat)
  | setContrast (v : Rat)
  | setVignetteBlendMode (v : Rat)
  | setVignetteEnabled (v : Bool)
  | setDitheringEnabled (v : Bool)
  | setDitheringIntensity (v : Rat)
  | setSkipFinalColorClamp (v : Bool)
  | setApplyByPostProcess (v : Bool)
  | setIsEnabled (v : Bool)

/-- Whether the backing field already holds the assigned value — the setter's
`if (this._field === value)` guard. -/
def sameValue : PropAssign → Config → Bool
  | .setColorCurvesEnabled v, s => s.colorCurvesEnabled == v
  | .setColorGradingTexture v, s => s.colorGradingTexture == v
  | .setColorGradingEnabled v, s => s.colorGradingEnabled == v
  | .setColorGradingWithGreenDepth v, s => s.colorGradingWithGreenDepth == v
  | .setColorGradingBGR v, s => s.colorGradingBGR == v
  | .setExposure v, s => s.exposure == v
  | .setToneMappingEnabled v, s => s.toneMappingEnabled == v
  | .setToneMappingType v, s => s.toneMappingType == v
  | .setContrast v, s => s.contrast == v
  | .setVignetteBlendMode v, s => s.vignetteBlendMode == v
  | .setVignetteEnabled v, s => s.vignetteEnabled == v
  | .setDitheringEnabled v, s => s.ditheringEnabled == v
  | .setDitheringIntensity v, s => s.ditheringIntensity == v
  | .setSkipFinalColorClamp v, s => s.skipFinalColorClamp == v
  | .setApplyByPostProcess v, s => s.applyByPostProcess == v
  | .setIsEnabled v, s => s.isEnabled == v

/-- The assignment's backing-field write, in isolation: the state with exactly
that property's field set to the assigned value. -/
def writeBack : PropAssign → Config → Config
  | .setColorCurvesEnabled v, s => { s with colorCurvesEnabled := v }
  | .setColorGradingTexture v, s => { s with colorGradingTexture := v }
  | .setColorGradingEnabled v, s => { s with colorGradingEnabled := v }
  | .setColorGradingWithGreenDepth v, s => { s with colorGradingWithGreenDepth := v }
  | .setColorGradingBGR v, s => { s with colorGradingBGR := v }
  | .setExposure v, s => { s with exposure := v }
  | .setToneMappingEnabled v, s => { s with toneMappingEnabled := v }
  | .setToneMappingType v, s => { s with toneMappingType := v }
  | .setContrast v, s => { s with contrast := v }
  | .setVignetteBlendMode v, s => { s with vignetteBlendMode := v }
  | .setVignetteEnabled v, s => { s with vignetteEnabled := v }
  | .setDitheringEnabled v, s => { s with ditheringEnabled := v }
  | .setDitheringIntensity v, s => { s with ditheringIntensity := v }
  | .setSkipFinalColorClamp v, s => { s with skipFinalColorClamp := v }
  | .setApplyByPostProcess v, s => { s with applyByPostProcess := v }
  | .setIsEnabled v, s => { s with isEnabled := v }

/-- The sixteen guarded setters, each as written in the source:
`if (this._field === value) { return; } this._field = value; this._updateParameters();`
— `_updateParameters()` calls `this.onUpdateParameters.notifyObservers(this)` once.
Returns the new state and the number of observer notifications issued. -/
def applySetter : PropAssign → Config → Config × Nat
  | .setColorCurvesEnabled v, s =>
      if s.colorCurvesEnabled == v then (s, 0)
      else ({ s with colorCurvesEnabled := v }, 1)
  | .setColorGradingTexture v, s =>
      if s.colorGradingTexture == v then (s, 0)
      else ({ s with colorGradingTexture := v }, 1)
  | .setColorGradingEnabled v, s =>
      if s.colorGradingEnabled == v then (s, 0)
      else ({ s with colorGradingEnabled := v }, 1)
  | .setColorGradingWithGreenDepth v, s =>
      if s.colorGradingWithGreenDepth == v then (s, 0)
      else ({ s with colorGradingWithGreenDepth := v }, 1)
  | .setColorGradingBGR v, s =>
      if s.colorGradingBGR == v then (s, 0)
      else ({ s with colorGradingBGR := v }, 1)
  | .setExposure v, s =>
      if s.exposure == v then (s, 0)
      else ({ s with exposure := v }, 1)
  | .setToneMappingEnabled v, s =>
      if s.toneMappingEnabled == v then (s, 0)
      else ({ s with toneMappingEnabled := v }, 1)
  | .setToneMappingType v, s =>
      if s.toneMappingType == v then (s, 0)
      else ({ s with toneMappingType := v }, 1)
  | .setContrast v, s =>
      if s.contrast == v then (s, 0)
      else ({ s with contrast := v }, 1)
  | .setVignetteBlendMode v, s =>
      if s.vignetteBlendMode == v then (s, 0)
      else ({ s with vignetteBlendMode := v }, 1)
  | .setVignetteEnabled v, s =>
      if s.vignetteEnabled == v then (s, 0)
      else ({ s with vignetteEnabled := v }, 1)
  | .setDitheringEnabled v, s =>
      if s.ditheringEnabled == v then (s, 0)
      else ({ s with ditheringEnabled := v }, 1)
  | .setDitheringIntensity v, s =>
      if s.ditheringIntensity == v then (s, 0)
      else ({ s with ditheringIntensity := v }, 1)
  | .setSkipFinalColorClamp v, s =>
      if s.skipFinalColorClamp == v then (s, 0)
      else ({ s with skipFinalColorClamp := v }, 1)
  | .setApplyByPostProcess v, s =>
      if s.applyByPostProcess == v then (s, 0)
      else ({ s with applyByPostProcess := v }, 1)
  | .setIsEnabled v, s =>
      if s.isEnabled == v then (s, 0)
      else ({ s with isEnabled := v }, 1)

end ImageProcessing

open ImageProcessing in
/-- C10: for every guarded property of `ImageProcessingConfiguration`, assigning
the value the property already holds leaves every field unchanged and notifies no
`onUpdateParameters` observer, while assigning a different value updates only that
property's backing field and notifies observers exactly once. -/
theorem C10_guarded_setters (p : PropAssign) (s : Config) :
    (sameValue p s = true → applySetter p s = (s, 0)) ∧
    (sameValue p s = false → applySetter p s = (writeBack p s, 1)) := by
  cases p <;>
    exact ⟨fun h => by simp only [sameValue] at h; simp [applySetter, h],
      fun h => by simp only [sameValue] at h; simp [applySetter, writeBack, h]⟩

open ImageProcessing in
/-- Witness for C10: on the freshly constructed configuration, re-assigning
`contrast = 1` (its current value) is a no-op with zero notifications, while
assigning `isEnabled = false` flips only that field with one notification. -/
theorem C10_guarded_setters_witness :
    applySetter (.setContrast 1) mkConfig = (mkConfig, 0) ∧
    applySetter (.setIsEnabled false) mkConfig =
      ({ mkConfig with isEnabled := false }, 1) :=
  ⟨(C10_guarded_setters (.setContrast 1) mkConfig).1 (by decide),
   (C10_guarded_setters (.setIsEnabled false) mkConfig).2 (by decide)⟩
